import Mathlib

/-!
Shallow embedding of `src/main.py` (the `arbowl/dashboard` personal
dashboard web app) and proofs about its renderer, cache, and route layer.
-/

namespace Dashboard

/-! ## Gradient stop constants (`main.py` lines 42-44) -/

def START_RGB : String := "#FF0000"

def CROSS_RGB : String := "#FFFF00"

def FINAL_RGB : String := "#06B025"

/-- Value of a hexadecimal digit character, as Python `int(c, 16)` reads it. -/
def hexVal (c : Char) : ℕ :=
  if '0' ≤ c ∧ c ≤ '9' then c.toNat - '0'.toNat
  else if 'A' ≤ c ∧ c ≤ 'F' then c.toNat - 'A'.toNat + 10
  else if 'a' ≤ c ∧ c ≤ 'f' then c.toNat - 'a'.toNat + 10
  else 0

/-- Python `int(s[i:i+2], 16)`: the two-hex-digit number starting at index `i`. -/
def hexPair (s : String) (i : ℕ) : ℕ :=
  16 * hexVal (s.toList.getD i '0') + hexVal (s.toList.getD (i + 1) '0')

/-- An RGB channel triple, as built by `[int(s[i:i+2], 16) for i in (1, 3, 5)]`
(`main.py` lines 149-155). -/
structure RGB where
  r : ℤ
  g : ℤ
  b : ℤ
deriving DecidableEq, Repr

/-- Parse a `#RRGGBB` color constant into its channels (slices at 1, 3, 5). -/
def rgbOfHex (s : String) : RGB :=
  ⟨hexPair s 1, hexPair s 3, hexPair s 5⟩

/-- numpy `.astype(int)` on one value: truncation toward zero. -/
def truncToInt (q : ℚ) : ℤ := if 0 ≤ q then ⌊q⌋ else ⌈q⌉

/-- One channel of `lo + fraction * (hi - lo)` followed by `.astype(int)`. -/
def lerpChannel (lo hi : ℤ) (f : ℚ) : ℤ :=
  truncToInt ((lo : ℚ) + f * ((hi : ℚ) - (lo : ℚ)))

/-- Channel-wise interpolation of two color stops (`main.py` lines 151 and 156). -/
def lerpRGB (lo hi : RGB) (f : ℚ) : RGB :=
  ⟨lerpChannel lo.r hi.r f, lerpChannel lo.g hi.g f, lerpChannel lo.b hi.b f⟩

/-- Color selection of `WhoopUser._generate_circle_image` (`main.py` lines
147-156). `none` models the `ZeroDivisionError` raised by the fraction
computation when `100 - midpoint == 0`; otherwise the chosen segment is
interpolated with `fraction = max((data - midpoint) / (100 - midpoint), 0)`. -/
def computeColor (data midpoint : ℚ) : Option RGB :=
  if data ≤ midpoint then
    if (100 : ℚ) - midpoint = 0 then none
    else
      let fraction := max ((data - midpoint) / (100 - midpoint)) 0
      some (lerpRGB (rgbOfHex START_RGB) (rgbOfHex CROSS_RGB) fraction)
  else
    if (100 : ℚ) - midpoint = 0 then none
    else
      let fraction := max ((data - midpoint) / (100 - midpoint)) 0
      some (lerpRGB (rgbOfHex CROSS_RGB) (rgbOfHex FINAL_RGB) fraction)

/-- Arc length drawn by the renderer (`main.py` line 158):
`xs_data = (data * pi * 2) / 100 if data > 2 else 100`.  The floating-point
constant `pi` is passed in as an explicit rational parameter. -/
def xs_data (pi data : ℚ) : ℚ := if data > 2 then data * pi * 2 / 100 else 100

/-- Uppercase hexadecimal digit character. -/
def hexDigit (n : ℕ) : Char :=
  if n < 10 then Char.ofNat ('0'.toNat + n) else Char.ofNat ('A'.toNat + (n - 10))

/-- Fuel-based uppercase hexadecimal rendering of a natural number, most
significant digit first, no leading zeros. -/
def natToHexAux : ℕ → ℕ → List Char
  | 0, _ => []
  | fuel + 1, n =>
      if n < 16 then [hexDigit n]
      else natToHexAux fuel (n / 16) ++ [hexDigit (n % 16)]

/-- Uppercase hexadecimal rendering of a natural number (fuel `n + 1` always
suffices, since the hex length grows logarithmically). -/
def natToHex (n : ℕ) : String := ⟨natToHexAux (n + 1) n⟩

/-- Left-pad with zeros to the given width. -/
def zeroPad (w : ℕ) (s : String) : String :=
  ⟨List.replicate (w - s.data.length) '0' ++ s.data⟩

/-- Modelled from Python semantics: `format(v, '02X')` — uppercase
hexadecimal, zero-padded to width 2; for negative values the sign counts
toward the width, so the magnitude is padded to width 1 (`format(-5, '02X')`
is `-5`, `format(510, '02X')` is `1FE`). -/
def toHex2 (v : ℤ) : String :=
  if v < 0 then "-" ++ zeroPad 1 (natToHex v.natAbs) else zeroPad 2 (natToHex v.toNat)

/-- The color string built on `main.py` line 157:
`f"#{rgb[0]:02X}{rgb[1]:02X}{rgb[2]:02X}"`. -/
def colorString (c : RGB) : String :=
  "#" ++ toHex2 c.r ++ toHex2 c.g ++ toHex2 c.b

/-- Modelled from Python semantics: the `#RRGGBB` hex-color format accepted
by matplotlib — `#` followed by exactly six hexadecimal digits.  Strings of
any other shape (extra digits from a channel above 255, a `-` sign from a
negative channel) make `to_rgba`, and hence `axis.barh` on line 162, raise
`ValueError`. -/
def isValidHexColor (s : String) : Bool :=
  s.data.length == 7 && s.data.headD ' ' == '#' &&
    (s.data.drop 1).all fun c =>
      c.isDigit || ('A' ≤ c && c ≤ 'F') || ('a' ≤ c && c ≤ 'f')

/-- Color stage of `_generate_circle_image` (`main.py` lines 147-162):
select and interpolate the gradient segment (`computeColor`), format the hex
string (line 157), and hand it to `axis.barh` (line 162), where matplotlib
validates it.  `none` models either the `ZeroDivisionError` of the fraction
or the `ValueError` matplotlib raises on a malformed color string. -/
def renderedColor (data midpoint : ℚ) : Option String :=
  match computeColor data midpoint with
  | none => none
  | some c =>
      if isValidHexColor (colorString c) then some (colorString c) else none

/-! ## Helper lemmas about the color computation -/

theorem truncToInt_intCast (n : ℤ) : truncToInt (n : ℚ) = n := by
  unfold truncToInt
  split <;> simp

theorem lerpChannel_zero (lo hi : ℤ) : lerpChannel lo hi 0 = lo := by
  simp [lerpChannel, truncToInt_intCast]

theorem lerpRGB_zero (lo hi : RGB) : lerpRGB lo hi 0 = lo := by
  simp [lerpRGB, lerpChannel_zero]

theorem rgbOfHex_start : rgbOfHex START_RGB = ⟨255, 0, 0⟩ := by decide

theorem rgbOfHex_cross : rgbOfHex CROSS_RGB = ⟨255, 255, 0⟩ := by decide

theorem rgbOfHex_final : rgbOfHex FINAL_RGB = ⟨6, 176, 37⟩ := by decide

theorem truncToInt_mono {a b : ℚ} (ha : 0 ≤ a) (hab : a ≤ b) :
    truncToInt a ≤ truncToInt b := by
  unfold truncToInt
  rw [if_pos ha, if_pos (ha.trans hab)]
  exact Int.floor_le_floor hab

/-- Interpolation toward a smaller stop value is antitone in the fraction,
as long as both stops are nonnegative and the fraction stays in `[0, 1]`. -/
theorem lerpChannel_anti (lo hi : ℤ) (hhi : 0 ≤ hi) (hle : hi ≤ lo)
    {f1 f2 : ℚ} (h0 : 0 ≤ f1) (h12 : f1 ≤ f2) (h1 : f2 ≤ 1) :
    lerpChannel lo hi f2 ≤ lerpChannel lo hi f1 := by
  have hd : ((hi : ℚ) - (lo : ℚ)) ≤ 0 := by
    have : (hi : ℚ) ≤ (lo : ℚ) := by exact_mod_cast hle
    linarith
  have hhi0 : (0 : ℚ) ≤ (hi : ℚ) := by exact_mod_cast hhi
  have hb1 : f2 * ((hi : ℚ) - (lo : ℚ)) ≥ 1 * ((hi : ℚ) - (lo : ℚ)) :=
    mul_le_mul_of_nonpos_right h1 hd
  have hb2 : f2 * ((hi : ℚ) - (lo : ℚ)) ≤ f1 * ((hi : ℚ) - (lo : ℚ)) :=
    mul_le_mul_of_nonpos_right h12 hd
  exact truncToInt_mono (by linarith) (by linarith)

/-- Interpolation toward a larger stop value is monotone in the fraction,
as long as the lower stop is nonnegative and the fraction is nonnegative. -/
theorem lerpChannel_mono (lo hi : ℤ) (hlo : 0 ≤ lo) (hle : lo ≤ hi)
    {f1 f2 : ℚ} (h0 : 0 ≤ f1) (h12 : f1 ≤ f2) :
    lerpChannel lo hi f1 ≤ lerpChannel lo hi f2 := by
  have hd : (0 : ℚ) ≤ ((hi : ℚ) - (lo : ℚ)) := by
    have : (lo : ℚ) ≤ (hi : ℚ) := by exact_mod_cast hle
    linarith
  have hlo0 : (0 : ℚ) ≤ (lo : ℚ) := by exact_mod_cast hlo
  have hb1 : 0 ≤ f1 * ((hi : ℚ) - (lo : ℚ)) := mul_nonneg h0 hd
  have hb2 : f1 * ((hi : ℚ) - (lo : ℚ)) ≤ f2 * ((hi : ℚ) - (lo : ℚ)) :=
    mul_le_mul_of_nonneg_right h12 hd
  exact truncToInt_mono (by linarith) (by linarith)

/-! ## C1, C2, C3, C5, C10: the color computation -/

/-- C1 counterexample: at `score = midpoint = 50` (both in range, midpoint
below 100) the computed color is the start stop `#FF0000`, not the cross stop
`#FFFF00` claimed by the spec's testable property. -/
theorem c1_midpoint_cross_color_counterexample :
    computeColor 50 50 = some (rgbOfHex START_RGB) ∧
      rgbOfHex START_RGB ≠ rgbOfHex CROSS_RGB := by
  constructor
  · norm_num [computeColor, rgbOfHex_start, rgbOfHex_cross, lerpRGB,
      lerpChannel, truncToInt, max_def, RGB.mk.injEq]
  · decide

/-- C1 (amended): for every score equal to the midpoint (both in `[0, 100]`,
midpoint strictly below 100), the computed color equals the start stop
`#FF0000` exactly, because the low branch interpolates from the start stop
with fraction 0. -/
theorem c1_midpoint_start_color (s m : ℚ) (h0 : 0 ≤ s) (h1 : s ≤ 100)
    (h2 : 0 ≤ m) (h3 : m < 100) (he : s = m) :
    computeColor s m = some (rgbOfHex START_RGB) := by
  subst he
  unfold computeColor
  rw [if_pos le_rfl, if_neg (by intro hc; linarith)]
  simp [lerpRGB_zero]

/-- C1 witness: the amended theorem applied at score 50, midpoint 50. -/
theorem c1_midpoint_start_color_witness :
    computeColor 50 50 = some (rgbOfHex START_RGB) :=
  c1_midpoint_start_color 50 50 (by norm_num) (by norm_num) (by norm_num)
    (by norm_num) rfl

/-- C2: for every score strictly below the midpoint (both in `[0, 100]`,
midpoint strictly below 100), the computed color equals the start stop
`#FF0000` exactly, because the interpolation fraction is clamped at 0. -/
theorem c2_below_midpoint_start_color (s m : ℚ) (h0 : 0 ≤ s) (h1 : s ≤ 100)
    (h2 : 0 ≤ m) (h3 : m < 100) (hlt : s < m) :
    computeColor s m = some (rgbOfHex START_RGB) := by
  unfold computeColor
  rw [if_pos hlt.le, if_neg (by intro hc; linarith)]
  have hfrac : max ((s - m) / (100 - m)) 0 = 0 := by
    apply max_eq_right
    apply div_nonpos_of_nonpos_of_nonneg <;> linarith
  simp only [hfrac, lerpRGB_zero]

/-- C2 witness: the theorem applied at score 10, midpoint 50. -/
theorem c2_below_midpoint_start_color_witness :
    computeColor 10 50 = some (rgbOfHex START_RGB) :=
  c2_below_midpoint_start_color 10 50 (by norm_num) (by norm_num) (by norm_num)
    (by norm_num) (by norm_num)

/-- C3: for scores `s1 < s2` in `(midpoint, 100]` with midpoint in `[0, 100)`,
every channel of the computed color moves monotonically from the cross stop
`#FFFF00` toward the final stop `#06B025`: the red and green channels (where
the final stop is below the cross stop) are non-increasing in the score, and
the blue channel (where the final stop is above the cross stop) is
non-decreasing. -/
theorem c3_monotone_above_midpoint (s1 s2 m : ℚ) (hm0 : 0 ≤ m) (hm : m < 100)
    (h1 : m < s1) (h12 : s1 < s2) (h2 : s2 ≤ 100) {c1 c2 : RGB}
    (hc1 : computeColor s1 m = some c1) (hc2 : computeColor s2 m = some c2) :
    c2.r ≤ c1.r ∧ c2.g ≤ c1.g ∧ c1.b ≤ c2.b := by
  have hden : (0 : ℚ) < 100 - m := by linarith
  have hdz : ¬((100 : ℚ) - m = 0) := by intro hc; linarith
  have hf1 : (0 : ℚ) ≤ (s1 - m) / (100 - m) :=
    div_nonneg (by linarith) (by linarith)
  have hf2 : (0 : ℚ) ≤ (s2 - m) / (100 - m) :=
    div_nonneg (by linarith) (by linarith)
  have hmax1 : max ((s1 - m) / (100 - m)) 0 = (s1 - m) / (100 - m) :=
    max_eq_left hf1
  have hmax2 : max ((s2 - m) / (100 - m)) 0 = (s2 - m) / (100 - m) :=
    max_eq_left hf2
  have hff : (s1 - m) / (100 - m) ≤ (s2 - m) / (100 - m) := by
    rw [div_le_div_iff₀ hden hden]
    nlinarith
  have hone : (s2 - m) / (100 - m) ≤ 1 := (div_le_one hden).mpr (by linarith)
  have e1 : computeColor s1 m =
      some (lerpRGB ⟨255, 255, 0⟩ ⟨6, 176, 37⟩ ((s1 - m) / (100 - m))) := by
    simp only [computeColor]
    rw [if_neg (not_le.mpr h1), if_neg hdz, hmax1, rgbOfHex_cross, rgbOfHex_final]
  have e2 : computeColor s2 m =
      some (lerpRGB ⟨255, 255, 0⟩ ⟨6, 176, 37⟩ ((s2 - m) / (100 - m))) := by
    simp only [computeColor]
    rw [if_neg (not_le.mpr (h1.trans h12)), if_neg hdz, hmax2, rgbOfHex_cross,
      rgbOfHex_final]
  rw [e1] at hc1
  rw [e2] at hc2
  have hcc1 := Option.some.inj hc1
  have hcc2 := Option.some.inj hc2
  subst hcc1
  subst hcc2
  refine ⟨?_, ?_, ?_⟩
  · exact lerpChannel_anti 255 6 (by norm_num) (by norm_num) hf1 hff hone
  · exact lerpChannel_anti 255 176 (by norm_num) (by norm_num) hf1 hff hone
  · exact lerpChannel_mono 0 37 le_rfl (by norm_num) hf1 hff

/-- C3 witness: the theorem applied at scores 60 and 80 with midpoint 50; the
two concrete colors are `(205, 239, 7)` and `(105, 207, 22)`. -/
theorem c3_monotone_above_midpoint_witness :
    ∃ c1 c2 : RGB, computeColor 60 50 = some c1 ∧ computeColor 80 50 = some c2 ∧
      (c2.r ≤ c1.r ∧ c2.g ≤ c1.g ∧ c1.b ≤ c2.b) :=
  ⟨⟨205, 239, 7⟩, ⟨105, 207, 22⟩,
    by
      norm_num [computeColor, rgbOfHex_cross, rgbOfHex_final, lerpRGB,
        lerpChannel, truncToInt, max_def, RGB.mk.injEq],
    by
      norm_num [computeColor, rgbOfHex_cross, rgbOfHex_final, lerpRGB,
        lerpChannel, truncToInt, max_def, RGB.mk.injEq],
    c3_monotone_above_midpoint 60 80 50 (by norm_num) (by norm_num) (by norm_num)
      (by norm_num) (by norm_num)
      (by
        norm_num [computeColor, rgbOfHex_cross, rgbOfHex_final, lerpRGB,
          lerpChannel, truncToInt, max_def, RGB.mk.injEq])
      (by
        norm_num [computeColor, rgbOfHex_cross, rgbOfHex_final, lerpRGB,
          lerpChannel, truncToInt, max_def, RGB.mk.injEq])⟩

/-- C5 counterexample: out-of-range renderer inputs do not always fail.  A
score of `-5` (below 0) with in-range midpoint 50 renders the start color,
and the out-of-range midpoint 150 with score 100 renders the cross color
(the fraction `(100 - 150) / (100 - 150)` is exactly 1, so every channel
stays in `[0, 255]`); neither call raises. -/
theorem c5_no_range_validation_counterexample :
    renderedColor (-5) 50 = some "#FF0000" ∧
      renderedColor 100 150 = some "#FFFF00" := by
  constructor
  · have hc : computeColor (-5) 50 = some ⟨255, 0, 0⟩ := by
      norm_num [computeColor, rgbOfHex_start, rgbOfHex_cross, lerpRGB,
        lerpChannel, truncToInt, max_def, RGB.mk.injEq]
    simp only [renderedColor, hc]
    decide
  · have hc : computeColor 100 150 = some ⟨255, 255, 0⟩ := by
      norm_num [computeColor, rgbOfHex_start, rgbOfHex_cross, lerpRGB,
        lerpChannel, truncToInt, max_def, RGB.mk.injEq]
    simp only [renderedColor, hc]
    decide

/-- C5 (amended): whether the renderer fails is independent of the documented
`[0, 100]` range — it performs no validation.  Every call with score strictly
below a midpoint below 100 succeeds with the start color, however far out of
range the score is; the out-of-range midpoint 150 succeeds at score 100; when
an interpolated channel leaves `[0, 255]` the line-157 string is not a valid
color and matplotlib raises `ValueError` (score 50 with midpoint 150 produces
the channel 510 and the 7-hex-digit string); and midpoint 100, inside the
documented range, fails with a division by zero for every score at most
100. -/
theorem c5_no_range_validation :
    (∀ s m : ℚ, s < m → m < 100 → renderedColor s m = some "#FF0000") ∧
    renderedColor 100 150 = some "#FFFF00" ∧
    renderedColor 50 150 = none ∧
    (∀ s : ℚ, s ≤ 100 → renderedColor s 100 = none) := by
  refine ⟨?_, ?_, ?_, ?_⟩
  · intro s m hlt hm
    have hdz : ¬((100 : ℚ) - m = 0) := by intro hc; linarith
    have hc : computeColor s m = some ⟨255, 0, 0⟩ := by
      unfold computeColor
      rw [if_pos hlt.le, if_neg hdz]
      have hfrac : max ((s - m) / (100 - m)) 0 = 0 := by
        apply max_eq_right
        apply div_nonpos_of_nonpos_of_nonneg <;> linarith
      simp only [hfrac, lerpRGB_zero, rgbOfHex_start]
    simp only [renderedColor, hc]
    decide
  · have hc : computeColor 100 150 = some ⟨255, 255, 0⟩ := by
      norm_num [computeColor, rgbOfHex_start, rgbOfHex_cross, lerpRGB,
        lerpChannel, truncToInt, max_def, RGB.mk.injEq]
    simp only [renderedColor, hc]
    decide
  · have hc : computeColor 50 150 = some ⟨255, 510, 0⟩ := by
      norm_num [computeColor, rgbOfHex_start, rgbOfHex_cross, lerpRGB,
        lerpChannel, truncToInt, max_def, RGB.mk.injEq]
    simp only [renderedColor, hc]
    decide
  · intro s hs
    have hc : computeColor s 100 = none := by
      unfold computeColor
      rw [if_pos (by linarith : s ≤ (100 : ℚ))]
      simp
    simp only [renderedColor, hc]

/-- C5 witness: the amended theorem applied at the out-of-range score `-7`
with the recovery midpoint 33, together with its concrete malformed-color
failure at score 50, midpoint 150. -/
theorem c5_no_range_validation_witness :
    renderedColor (-7) 33 = some "#FF0000" ∧ renderedColor 50 150 = none :=
  ⟨c5_no_range_validation.1 (-7) 33 (by norm_num) (by norm_num),
    c5_no_range_validation.2.2.1⟩

/-- C10: with `midpoint = 100` (a value inside the documented range `[0, 100]`)
every score at most 100 drives the fraction computation into an unguarded
division by `100 - midpoint = 0`, so the renderer raises a division-by-zero
error (modelled as `none`). -/
theorem c10_division_by_zero_at_midpoint_100 (s : ℚ) (h : s ≤ 100) :
    computeColor s 100 = none := by
  unfold computeColor
  rw [if_pos (by linarith : s ≤ (100 : ℚ))]
  simp

/-- C10 witness: the theorem applied at score 50. -/
theorem c10_division_by_zero_witness : computeColor 50 100 = none :=
  c10_division_by_zero_at_midpoint_100 50 (by norm_num)

/-! ## C4: the arc length -/

/-- C4: for any value of the floating-point constant `pi` (bracketed between 3
and 22/7), the arc length is a pure function of the score: it equals
`s * 2 * pi / 100` for every `s > 2` and the fixed fallback `100` for every
`s ≤ 2`; and the function is discontinuous at `s = 2`, jumping by more than 99
between `s = 2` and scores arbitrarily close above 2. -/
theorem c4_arc_pure_function_with_discontinuity (pi : ℚ)
    (hlo : 3 ≤ pi) (hhi : pi ≤ 22 / 7) :
    (∀ s : ℚ, 2 < s → xs_data pi s = s * (2 * pi) / 100) ∧
    (∀ s : ℚ, s ≤ 2 → xs_data pi s = 100) ∧
    (∀ δ : ℚ, 0 < δ →
      ∃ s, 2 < s ∧ s < 2 + δ ∧ 99 < xs_data pi 2 - xs_data pi s) := by
  refine ⟨?_, ?_, ?_⟩
  · intro s hs
    unfold xs_data
    rw [if_pos hs]
    ring
  · intro s hs
    unfold xs_data
    rw [if_neg (not_lt.mpr hs)]
  · intro δ hδ
    have hmin : 0 < min δ 1 := lt_min hδ one_pos
    refine ⟨2 + min δ 1 / 2, by linarith, ?_, ?_⟩
    · have h1 : min δ 1 ≤ δ := min_le_left _ _
      linarith
    · have hs2 : 2 + min δ 1 / 2 ≤ 5 / 2 := by
        have := min_le_right δ 1
        linarith
      unfold xs_data
      rw [if_pos (by linarith : (2 : ℚ) < 2 + min δ 1 / 2),
        if_neg (by norm_num : ¬((2 : ℚ) > 2))]
      have hpi0 : (0 : ℚ) ≤ pi := by linarith
      have hmul : (2 + min δ 1 / 2) * pi ≤ 5 / 2 * (22 / 7) :=
        mul_le_mul hs2 hhi hpi0 (by norm_num)
      linarith

/-- C4 witness: the theorem applied at `pi = 3.14`, evaluated at the scores
2 (fallback branch) and 50 (formula branch). -/
theorem c4_arc_pure_function_witness :
    xs_data (157 / 50) 2 = 100 ∧
      xs_data (157 / 50) 50 = 50 * (2 * (157 / 50)) / 100 := by
  have h := c4_arc_pure_function_with_discontinuity (157 / 50) (by norm_num)
    (by norm_num)
  exact ⟨h.2.1 2 le_rfl, h.1 50 (by norm_num)⟩

/-! ## C9: image filenames

The renderer builds its output path from
`'_'.join([self.name.casefold(), title.lower()])` (`main.py` lines 180-188),
while the route layer's `WhoopUser.data` embeds
`{self.name.lower()}_sleep.png` and `{self.name.lower()}_recovery.png` in the
image URLs (`main.py` lines 89-98). -/

/-- Modelled from Python semantics: `str.lower` on one character, restricted
to the ASCII range plus U+00DF; ASCII uppercase letters map to lowercase and
every other character (including U+00DF, which `lower` leaves unchanged) maps
to itself. -/
def pyLowerChar (c : Char) : Char :=
  if 'A' ≤ c ∧ c ≤ 'Z' then Char.ofNat (c.toNat + 32) else c

/-- Modelled from Python semantics: `str.lower` over the same restricted
alphabet, applied characterwise. -/
def pyLower (s : String) : String := ⟨s.data.map pyLowerChar⟩

/-- Modelled from Python semantics: `str.casefold` on one character over the
same restricted alphabet: it agrees with `lower` except that U+00DF (ß)
case-folds to the two-character string `ss`. -/
def pyCasefoldChar (c : Char) : List Char :=
  if c = 'ß' then ['s', 's'] else [pyLowerChar c]

/-- Modelled from Python semantics: `str.casefold` over the restricted
alphabet, applied characterwise. -/
def pyCasefold (s : String) : String := ⟨(s.data.map pyCasefoldChar).flatten⟩

/-- Image filename written by the renderer (`main.py` lines 180-188):
`'_'.join([self.name.casefold(), title.lower()])` with the `.png` extension. -/
def rendererFilename (name title : String) : String :=
  pyCasefold name ++ "_" ++ pyLower title ++ ".png"

/-- Filename referenced in the sleep image URL built by `WhoopUser.data`
(`main.py` lines 94-95). -/
def dataSleepFilename (name : String) : String := pyLower name ++ "_sleep.png"

/-- Filename referenced in the recovery image URL built by `WhoopUser.data`
(`main.py` lines 96-97). -/
def dataRecoveryFilename (name : String) : String :=
  pyLower name ++ "_recovery.png"

theorem string_append_assoc (a b c : String) : a ++ b ++ c = a ++ (b ++ c) := by
  cases a
  cases b
  cases c
  exact congrArg String.mk (List.append_assoc _ _ _)

/-- C9 counterexample: for the user name `"ß"` and the metric `Sleep`, the
renderer writes `ss_sleep.png` (via `casefold`) while the route layer's URL
references `ß_sleep.png` (via `lower`), so the claimed filename invariant
fails for that name. -/
theorem c9_filename_counterexample :
    rendererFilename "ß" "Sleep" ≠ dataSleepFilename "ß" := by decide

/-- C9 (amended): for every user name on which `casefold` and `lower` agree
(in particular every ASCII name, hence every configured user) and for the two
metrics the program renders, the filename written by the renderer equals the
filename referenced by the route layer's per-user data property. -/
theorem c9_filename_agreement (name : String)
    (h : pyCasefold name = pyLower name) :
    rendererFilename name "Sleep" = dataSleepFilename name ∧
      rendererFilename name "Recovery" = dataRecoveryFilename name := by
  unfold rendererFilename dataSleepFilename dataRecoveryFilename
  rw [h]
  constructor
  · rw [string_append_assoc, string_append_assoc]
    exact congrArg (fun t => pyLower name ++ t) (by decide)
  · rw [string_append_assoc, string_append_assoc]
    exact congrArg (fun t => pyLower name ++ t) (by decide)

/-- C9 witness: the amended theorem applied at the configured user name
`"Drew"`. -/
theorem c9_filename_agreement_witness :
    rendererFilename "Drew" "Sleep" = dataSleepFilename "Drew" ∧
      rendererFilename "Drew" "Recovery" = dataRecoveryFilename "Drew" :=
  c9_filename_agreement "Drew" (by decide)

/-! ## C6: the per-day score cache

`WhoopUser` keeps `sleep`, `strain`, `recovery` and `_today` as mutable
fields (`main.py` lines 67-70).  The `today` property (lines 78-87) resets
the three scores whenever the stored date differs from the current date, but
each accessor (for example `get_recovery`, lines 100-111) returns the cached
value *before* ever touching `today`. -/

/-- Mutable per-user state of `WhoopUser` (`main.py` lines 62-70). -/
structure WhoopUserState where
  name : String
  sleep : Option ℤ
  strain : Option ℚ
  recovery : Option ℤ
  _today : Option String
deriving DecidableEq, Repr

/-- The `WhoopUser.today` property (`main.py` lines 78-87), with the ambient
current date passed explicitly: it returns today's date and resets the three
cached scores when the stored date differs from the current one. -/
def todayProp (curDate : String) (u : WhoopUserState) : String × WhoopUserState :=
  if u._today ≠ some curDate then
    (curDate,
      { u with sleep := none, strain := none, recovery := none,
               _today := some curDate })
  else (curDate, u)

/-- The `WhoopUser.get_recovery` accessor (`main.py` lines 100-111).
`recoveryOf` models the fitness client (`get_cycle_collection` followed by
`get_recovery_for_cycle`) as a date-indexed score.  The result carries the
returned score, the updated state, and the number of
`_generate_circle_image` (renderer) invocations the call performed.  The
cache short-circuit on line 102 happens before `self.today` is read. -/
def get_recovery (recoveryOf : String → ℤ) (curDate : String)
    (u : WhoopUserState) : ℤ × WhoopUserState × ℕ :=
  match u.recovery with
  | some r => (r, u, 0)
  | none =>
      let td := (todayProp curDate u).1
      let u1 := (todayProp curDate u).2
      let r := recoveryOf td
      (r, { u1 with recovery := some r }, 1)

/-- A freshly constructed `WhoopUser("Drew")`: all scores and the stored date
start as `None` (`main.py` lines 62-70). -/
def freshUser : WhoopUserState := ⟨"Drew", none, none, none, none⟩

/-- A fitness client whose recovery score is 50 on 2024-01-01 and 80 on
2024-01-02. -/
def recoveryClient (d : String) : ℤ := if d = "2024-01-02" then 80 else 50

/-- C6: the same-date half of the claim holds — a second `get_recovery` call
on the same date returns the identical cached value and never invokes the
renderer again — but the date-change half fails: after the current date
advances to 2024-01-02, the next call still returns the stale cached score 50
with no renderer call, even though the client now reports 80, because the
cache test precedes the `today` date check.  This contradicts the `today`
docstring ("refreshes scores once per day") and the claim. -/
theorem c6_cache_never_invalidated_across_days :
    (get_recovery recoveryClient "2024-01-01" freshUser).1 = 50 ∧
    (get_recovery recoveryClient "2024-01-01" freshUser).2.2 = 1 ∧
    (get_recovery recoveryClient "2024-01-01"
      (get_recovery recoveryClient "2024-01-01" freshUser).2.1).1 = 50 ∧
    (get_recovery recoveryClient "2024-01-01"
      (get_recovery recoveryClient "2024-01-01" freshUser).2.1).2.2 = 0 ∧
    (get_recovery recoveryClient "2024-01-02"
      (get_recovery recoveryClient "2024-01-01" freshUser).2.1).1 = 50 ∧
    (get_recovery recoveryClient "2024-01-02"
      (get_recovery recoveryClient "2024-01-01" freshUser).2.1).2.2 = 0 ∧
    recoveryClient "2024-01-02" = 80 := by decide

/-! ## C8: the `/tasks` handler

`show_tasks` (`main.py` lines 243-262) fetches rows from the local task
service; on a 200 response it keeps each row's description and due date, then
reformats the first six rows' dates from `%d-%m-%Y %H:%M:%S` to
`%B %d, %Y`.  Any non-200 status leaves the task list empty. -/

/-- Numeric value of a decimal digit character. -/
def digitVal (c : Char) : ℕ := c.toNat - '0'.toNat

/-- Modelled from Python semantics: one 1-or-2-digit `strptime` numeric field.
The underlying regular expressions (for example `3[01]|[12]\d|0[1-9]|[1-9]`
for `%d`) greedily accept two digits when their value lies in `[lo2, hi2]`
and otherwise fall back to a single digit in `[lo1, hi1]`. -/
def parseField (lo2 hi2 lo1 hi1 : ℕ) : List Char → Option (ℕ × List Char)
  | c1 :: c2 :: rest =>
      if c1.isDigit ∧ c2.isDigit ∧ lo2 ≤ 10 * digitVal c1 + digitVal c2 ∧
          10 * digitVal c1 + digitVal c2 ≤ hi2 then
        some (10 * digitVal c1 + digitVal c2, rest)
      else if c1.isDigit ∧ lo1 ≤ digitVal c1 ∧ digitVal c1 ≤ hi1 then
        some (digitVal c1, c2 :: rest)
      else none
  | [c1] =>
      if c1.isDigit ∧ lo1 ≤ digitVal c1 ∧ digitVal c1 ≤ hi1 then
        some (digitVal c1, [])
      else none
  | [] => none

/-- Consume one expected literal character of the format string. -/
def expectChar (c : Char) : List Char → Option (List Char)
  | c1 :: rest => if c1 = c then some rest else none
  | [] => none

/-- Modelled from Python semantics: the `%Y` field, exactly four digits. -/
def parseYear : List Char → Option (ℕ × List Char)
  | c1 :: c2 :: c3 :: c4 :: rest =>
      if c1.isDigit ∧ c2.isDigit ∧ c3.isDigit ∧ c4.isDigit then
        some (1000 * digitVal c1 + 100 * digitVal c2 + 10 * digitVal c3 +
          digitVal c4, rest)
      else none
  | _ => none

/-- Gregorian leap-year rule, as `datetime` validates it. -/
def isLeap (y : ℕ) : Bool := (y % 4 == 0 && y % 100 != 0) || y % 400 == 0

/-- Days in a month, as `datetime` validates the day field. -/
def daysInMonth (y m : ℕ) : ℕ :=
  if m = 2 then (if isLeap y then 29 else 28)
  else if m = 4 ∨ m = 6 ∨ m = 9 ∨ m = 11 then 30 else 31

/-- Modelled from Python semantics:
`datetime.strptime(s, "%d-%m-%Y %H:%M:%S")` (`main.py` line 254).  The whole
string must be consumed and the fields must form a valid timestamp; `none`
models the `ValueError` raised otherwise.  Only the date triple
`(day, month, year)` is returned, since the handler formats only those. -/
def strptimeTaskDate (s : String) : Option (ℕ × ℕ × ℕ) := do
  let (d, r1) ← parseField 1 31 1 9 s.data
  let r2 ← expectChar '-' r1
  let (m, r3) ← parseField 1 12 1 9 r2
  let r4 ← expectChar '-' r3
  let (y, r5) ← parseYear r4
  let r6 ← expectChar ' ' r5
  let (hh, r7) ← parseField 0 23 0 9 r6
  let r8 ← expectChar ':' r7
  let (mi, r9) ← parseField 0 59 0 9 r8
  let r10 ← expectChar ':' r9
  let (ss, r11) ← parseField 0 61 0 9 r10
  if r11 = [] ∧ 1 ≤ y ∧ d ≤ daysInMonth y m ∧ hh ≤ 23 ∧ mi ≤ 59 ∧ ss ≤ 59 then
    some (d, m, y)
  else none

/-- English month name, as `%B` renders it. -/
def monthName (m : ℕ) : String :=
  if m = 1 then "January" else if m = 2 then "February"
  else if m = 3 then "March" else if m = 4 then "April"
  else if m = 5 then "May" else if m = 6 then "June"
  else if m = 7 then "July" else if m = 8 then "August"
  else if m = 9 then "September" else if m = 10 then "October"
  else if m = 11 then "November" else if m = 12 then "December" else ""

/-- Zero-padded two-digit rendering, as `%d` formats the day. -/
def pad2 (n : ℕ) : String := if n < 10 then "0" ++ toString n else toString n

/-- Reformat one due-date string (`main.py` lines 254-255): parse it with
`%d-%m-%Y %H:%M:%S` and render it as `%B %d, %Y`. -/
def formatTaskDate (s : String) : Option String :=
  (strptimeTaskDate s).map fun t =>
    monthName t.2.1 ++ " " ++ pad2 t.1 ++ ", " ++ toString t.2.2

/-- One record of the local task service's `/retrieve` response:
`[id, description, dueDateString]`. -/
structure TaskRow where
  id : String
  description : String
  due : String
deriving DecidableEq, Repr, Inhabited

/-- One entry of the `/tasks` handler's JSON response. -/
structure TaskOut where
  task : String
  date : String
deriving DecidableEq, Repr, Inhabited

/-- The task-building loop of `show_tasks`: each processed row either yields
an output entry or raises (`none` aborts the whole request, modelling the
uncaught `ValueError` of a malformed date). -/
def buildTasks : List (String × String) → Option (List TaskOut)
  | [] => some []
  | t :: rest =>
      match formatTaskDate t.2, buildTasks rest with
      | some d, some acc => some (⟨t.1, d⟩ :: acc)
      | _, _ => none

/-- The `/tasks` handler `show_tasks` (`main.py` lines 243-262), as a function
of the task service's HTTP status code and decoded rows.  A non-200 status
leaves `tasks` empty; otherwise each row contributes `[task[1], task[2]]`,
and the first six entries are reformatted. -/
def show_tasks (status : ℕ) (rows : List TaskRow) : Option (List TaskOut) :=
  let tasks := if status = 200 then rows.map (fun t => (t.description, t.due))
    else []
  buildTasks (tasks.take 6)

theorem buildTasks_length {l : List (String × String)} {out : List TaskOut}
    (h : buildTasks l = some out) : out.length = l.length := by
  induction l generalizing out with
  | nil =>
      simp only [buildTasks, Option.some.injEq] at h
      subst h
      rfl
  | cons t rest ih =>
      simp only [buildTasks] at h
      rcases hf : formatTaskDate t.2 with _ | d <;> rw [hf] at h
      · exact absurd h (by simp)
      · rcases hr : buildTasks rest with _ | acc <;> rw [hr] at h
        · exact absurd h (by simp)
        · simp only [Option.some.injEq] at h
          subst h
          simp [ih hr]

theorem buildTasks_mem {l : List (String × String)} {out : List TaskOut}
    (h : buildTasks l = some out) {o : TaskOut} (ho : o ∈ out) :
    ∃ t ∈ l, o.task = t.1 ∧ formatTaskDate t.2 = some o.date := by
  induction l generalizing out with
  | nil =>
      simp only [buildTasks, Option.some.injEq] at h
      subst h
      simp at ho
  | cons t rest ih =>
      simp only [buildTasks] at h
      rcases hf : formatTaskDate t.2 with _ | d <;> rw [hf] at h
      · exact absurd h (by simp)
      · rcases hr : buildTasks rest with _ | acc <;> rw [hr] at h
        · exact absurd h (by simp)
        · simp only [Option.some.injEq] at h
          subst h
          rcases List.mem_cons.mp ho with rfl | ho
          · exact ⟨t, by simp, rfl, by simp [hf]⟩
          · obtain ⟨t', ht', h1, h2⟩ := ih hr ho
            exact ⟨t', by simp [ht'], h1, h2⟩

/-- C8: the `/tasks` handler returns at most six task objects; every returned
object's date is the `%B %d, %Y` reformatting of some fetched row's
`%d-%m-%Y %H:%M:%S` due date (in particular `"01-03-2024 09:00:00"` maps to
`"March 01, 2024"`); and for every non-200 task-service status and any
response body, the handler succeeds with the empty list — it does not reach
the row processing, so no error can arise on that path. -/
theorem c8_tasks_reformat_and_degrade (status : ℕ) (rows : List TaskRow)
    {out : List TaskOut} (h : show_tasks status rows = some out) :
    out.length ≤ 6 ∧
    (∀ o ∈ out, ∃ t ∈ rows,
      o.task = t.description ∧ formatTaskDate t.due = some o.date) ∧
    formatTaskDate "01-03-2024 09:00:00" = some "March 01, 2024" ∧
    (∀ st : ℕ, ∀ rs : List TaskRow, st ≠ 200 → show_tasks st rs = some []) := by
  have hempty : ∀ st : ℕ, ∀ rs : List TaskRow, st ≠ 200 →
      show_tasks st rs = some [] := by
    intro st rs hst
    unfold show_tasks
    rw [if_neg hst]
    rfl
  unfold show_tasks at h
  by_cases hs : status = 200
  · rw [if_pos hs] at h
    refine ⟨?_, ?_, by decide, hempty⟩
    · have := buildTasks_length h
      have hlen := List.length_take_le 6 (rows.map fun t => (t.description, t.due))
      omega
    · intro o ho
      obtain ⟨t, ht, h1, h2⟩ := buildTasks_mem h ho
      have ht' : t ∈ rows.map fun t => (t.description, t.due) :=
        List.take_subset 6 _ ht
      obtain ⟨row, hrow, hrt⟩ := List.mem_map.mp ht'
      refine ⟨row, hrow, ?_, ?_⟩
      · rw [← hrt] at h1
        simpa using h1
      · rw [← hrt] at h2
        simpa using h2
  · rw [if_neg hs] at h
    simp only [List.take_nil, buildTasks, Option.some.injEq] at h
    subst h
    exact ⟨by simp, by simp, by decide, hempty⟩

/-- C8 witness: the theorem applied to a 200 response carrying a single row
due `"01-03-2024 09:00:00"`, which the handler returns as `"March 01, 2024"`;
its degradation conjunct is then instantiated at an HTTP 500 status with a
malformed row, which the handler answers with the empty list rather than an
error. -/
theorem c8_tasks_reformat_witness :
    ([⟨"Buy milk", "March 01, 2024"⟩] : List TaskOut).length ≤ 6 ∧
    (∀ o ∈ ([⟨"Buy milk", "March 01, 2024"⟩] : List TaskOut),
      ∃ t ∈ [(⟨"1", "Buy milk", "01-03-2024 09:00:00"⟩ : TaskRow)],
        o.task = t.description ∧ formatTaskDate t.due = some o.date) ∧
    formatTaskDate "01-03-2024 09:00:00" = some "March 01, 2024" ∧
    show_tasks 500 [⟨"2", "Call plumber", "not a date"⟩] = some [] := by
  have h := @c8_tasks_reformat_and_degrade 200
    [⟨"1", "Buy milk", "01-03-2024 09:00:00"⟩]
    [⟨"Buy milk", "March 01, 2024"⟩] (by decide)
  exact ⟨h.1, h.2.1, h.2.2.1,
    h.2.2.2 500 [⟨"2", "Call plumber", "not a date"⟩] (by norm_num)⟩

/-! ## C7: the `/weather` handler

`get_weather` (`main.py` lines 197-233) initializes its running extrema with
`hi, lo = -math.inf, math.inf` (line 208) and resets them the same way at
every day boundary (line 231).  The module, however, never imports `math`:
its import block (lines 17-33) brings in `pi` and `inf` from numpy but no
name `math`, so evaluating `math.inf` raises a `NameError` on every request
before any forecast entry is processed. -/

/-- The runtime error relevant to the `/weather` handler. -/
inductive PyError where
  | nameError : PyError
deriving DecidableEq, Repr

/-- Names bound at module level of `main.py` by its import block (lines
17-33).  `math` is absent: line 31 imports `pi` and `inf` from numpy. -/
def moduleImportedNames : List String :=
  ["annotations", "suppress", "date", "datetime", "Enum", "getenv", "getcwd",
   "join", "Optional", "load_dotenv", "Flask", "jsonify", "render_template",
   "request", "Axes", "plt", "nparray", "pi", "inf", "get", "WhoopClient"]

/-- One 3-hour forecast entry of the weather API response, restricted to the
fields `get_weather` consumes. -/
structure ForecastEntry where
  dt : ℤ
  description : String
  temp_min : ℚ
  temp_max : ℚ
  icon : String
deriving DecidableEq, Repr, Inhabited

/-- One day object of the `/weather` response.  `low_temp` and `high_temp`
hold the `round(...)` values; the `°F` suffix added by the f-string is
omitted. -/
structure ForecastDay where
  date : String
  description : String
  low_temp : ℤ
  high_temp : ℤ
  icon_code : String
deriving DecidableEq, Repr, Inhabited

/-- Modelled from Python semantics: `round` to an integer, rounding halves to
the even neighbour. -/
def roundHalfEven (q : ℚ) : ℤ :=
  if q - (⌊q⌋ : ℚ) < 1 / 2 then ⌊q⌋
  else if 1 / 2 < q - (⌊q⌋ : ℚ) then ⌊q⌋ + 1
  else if ⌊q⌋ % 2 = 0 then ⌊q⌋ else ⌊q⌋ + 1

/-- Modelled from Python semantics: `str.upper` on one ASCII character. -/
def pyUpperChar (c : Char) : Char :=
  if 'a' ≤ c ∧ c ≤ 'z' then Char.ofNat (c.toNat - 32) else c

/-- Helper for `pyTitle`: the Boolean records whether the previous character
was a letter. -/
def pyTitleGo : Bool → List Char → List Char
  | _, [] => []
  | prevAlpha, c :: cs =>
      if c.isAlpha then
        (if prevAlpha then pyLowerChar c else pyUpperChar c) :: pyTitleGo true cs
      else c :: pyTitleGo false cs

/-- Modelled from Python semantics: `str.title` over ASCII text — the first
letter of every run of letters is uppercased and the rest lowercased. -/
def pyTitle (s : String) : String := ⟨pyTitleGo false s.data⟩

/-- Running minimum started at `math.inf`: `none` is the untouched initial
infinity, so the first accumulation just adopts the entry's value. -/
def omin (a : Option ℚ) (b : ℚ) : Option ℚ :=
  some (a.elim b (fun x => min x b))

/-- Running maximum started at `-math.inf`. -/
def omax (a : Option ℚ) (b : ℚ) : Option ℚ :=
  some (a.elim b (fun x => max x b))

/-- Loop state of `get_weather`: the accumulated `forecast` list, the
current day's `descriptions`, and the running `hi`/`lo` extrema. -/
structure WeatherState where
  forecast : List ForecastDay
  descriptions : List String
  hi : Option ℚ
  lo : Option ℚ
deriving Repr, Inhabited

/-- One iteration of the `for i in range(0, 5 * 8)` loop of `get_weather`
(`main.py` lines 210-232): fold the current entry into the extrema and the
description list; at every eighth index, emit a day object built from the
midday description (`descriptions[4]`), the rounded extrema, and the current
entry's weekday and icon, then reset the accumulators. -/
def weatherStep (f : ℤ → String) (data : List ForecastEntry)
    (s : WeatherState) (i : ℕ) : WeatherState :=
  let e := data.getD i default
  let lo := omin s.lo e.temp_min
  let hi := omax s.hi e.temp_max
  let ds := s.descriptions ++ [e.description]
  if (i + 1) % 8 = 0 then
    { forecast := s.forecast ++ [{
        date := f e.dt,
        description := pyTitle (ds.getD 4 ""),
        low_temp := roundHalfEven (lo.getD 0),
        high_temp := roundHalfEven (hi.getD 0),
        icon_code := e.icon }],
      descriptions := [], hi := none, lo := none }
  else { forecast := s.forecast, descriptions := ds, hi := hi, lo := lo }

/-- The forecast list built by the loop of `get_weather`, given the decoded
response entries and `f`, the weekday-name rendering of a timestamp
(`datetime.fromtimestamp(ts).strftime("%A")`). -/
def weatherDays (f : ℤ → String) (data : List ForecastEntry) :
    List ForecastDay :=
  (List.foldl (weatherStep f data) ⟨[], [], none, none⟩
    (List.range (5 * 8))).forecast

/-- The `/weather` handler `get_weather` (`main.py` lines 197-233), as a
function of the module's bound names, the weekday renderer, and the decoded
response: line 208 resolves the name `math` before the loop runs, so when it
is unbound the handler raises `NameError` and nothing else happens. -/
def get_weather (names : List String) (f : ℤ → String)
    (data : List ForecastEntry) : Except PyError (List ForecastDay) :=
  if names.contains "math" then .ok (weatherDays f data)
  else .error .nameError

/-! ### Evaluating the weather loop -/

theorem floor_le_roundHalfEven (q : ℚ) : ⌊q⌋ ≤ roundHalfEven q := by
  unfold roundHalfEven
  split_ifs <;> omega

theorem roundHalfEven_le_floor_add_one (q : ℚ) : roundHalfEven q ≤ ⌊q⌋ + 1 := by
  unfold roundHalfEven
  split_ifs <;> omega

theorem roundHalfEven_mono {a b : ℚ} (h : a ≤ b) :
    roundHalfEven a ≤ roundHalfEven b := by
  have hf : ⌊a⌋ ≤ ⌊b⌋ := Int.floor_le_floor h
  rcases lt_or_eq_of_le hf with hlt | heq
  · have h1 := roundHalfEven_le_floor_add_one a
    have h2 := floor_le_roundHalfEven b
    omega
  · have hcast : ((⌊a⌋ : ℤ) : ℚ) = ((⌊b⌋ : ℤ) : ℚ) := by exact_mod_cast heq
    unfold roundHalfEven
    rw [heq]
    have hab : a - ((⌊b⌋ : ℤ) : ℚ) ≤ b - ((⌊b⌋ : ℤ) : ℚ) := by
      rw [← hcast]
      linarith
    split_ifs <;> first | omega | (exfalso; linarith)

theorem weatherStep_acc (f : ℤ → String) (data : List ForecastEntry)
    (fc : List ForecastDay) (ds : List String) (hi lo : Option ℚ) (i : ℕ)
    (h : ¬((i + 1) % 8 = 0)) :
    weatherStep f data ⟨fc, ds, hi, lo⟩ i =
      ⟨fc, ds ++ [(data.getD i default).description],
        omax hi (data.getD i default).temp_max,
        omin lo (data.getD i default).temp_min⟩ := by
  simp only [weatherStep]
  rw [if_neg h]

theorem weatherStep_push (f : ℤ → String) (data : List ForecastEntry)
    (fc : List ForecastDay) (ds : List String) (hi lo : Option ℚ) (i : ℕ)
    (h : (i + 1) % 8 = 0) :
    weatherStep f data ⟨fc, ds, hi, lo⟩ i =
      ⟨fc ++ [⟨f (data.getD i default).dt,
          pyTitle ((ds ++ [(data.getD i default).description]).getD 4 ""),
          roundHalfEven ((omin lo (data.getD i default).temp_min).getD 0),
          roundHalfEven ((omax hi (data.getD i default).temp_max).getD 0),
          (data.getD i default).icon⟩],
        [], none, none⟩ := by
  simp only [weatherStep]
  rw [if_pos h]

/-- The day object the loop emits for day `k` (entries `8k` through
`8k + 7`): weekday and icon from the last entry, title-cased description from
the fifth (midday) entry, and rounded extrema of the chunk. -/
def mkDay (f : ℤ → String) (data : List ForecastEntry) (k : ℕ) : ForecastDay :=
  { date := f (data.getD (8 * k + 7) default).dt
    description := pyTitle (data.getD (8 * k + 4) default).description
    low_temp := roundHalfEven (min (min (min (min (min (min (min
        (data.getD (8 * k) default).temp_min
        (data.getD (8 * k + 1) default).temp_min)
        (data.getD (8 * k + 2) default).temp_min)
        (data.getD (8 * k + 3) default).temp_min)
        (data.getD (8 * k + 4) default).temp_min)
        (data.getD (8 * k + 5) default).temp_min)
        (data.getD (8 * k + 6) default).temp_min)
        (data.getD (8 * k + 7) default).temp_min)
    high_temp := roundHalfEven (max (max (max (max (max (max (max
        (data.getD (8 * k) default).temp_max
        (data.getD (8 * k + 1) default).temp_max)
        (data.getD (8 * k + 2) default).temp_max)
        (data.getD (8 * k + 3) default).temp_max)
        (data.getD (8 * k + 4) default).temp_max)
        (data.getD (8 * k + 5) default).temp_max)
        (data.getD (8 * k + 6) default).temp_max)
        (data.getD (8 * k + 7) default).temp_max)
    icon_code := (data.getD (8 * k + 7) default).icon }

/-- Unrolling the 40-iteration loop: the forecast list is exactly the five
day objects. -/
theorem weatherDays_eq (f : ℤ → String) (data : List ForecastEntry) :
    weatherDays f data =
      [mkDay f data 0, mkDay f data 1, mkDay f data 2, mkDay f data 3,
       mkDay f data 4] := by
  have hrange : List.range (5 * 8) =
      [0, 1, 2, 3, 4, 5, 6, 7, 8, 9, 10, 11, 12, 13, 14, 15, 16, 17, 18, 19,
       20, 21, 22, 23, 24, 25, 26, 27, 28, 29, 30, 31, 32, 33, 34, 35, 36,
       37, 38, 39] := by rfl
  unfold weatherDays
  rw [hrange]
  simp only [List.foldl_cons, List.foldl_nil]
  rw [weatherStep_acc f data _ _ _ _ 0 (by norm_num)]
  rw [weatherStep_acc f data _ _ _ _ 1 (by norm_num)]
  rw [weatherStep_acc f data _ _ _ _ 2 (by norm_num)]
  rw [weatherStep_acc f data _ _ _ _ 3 (by norm_num)]
  rw [weatherStep_acc f data _ _ _ _ 4 (by norm_num)]
  rw [weatherStep_acc f data _ _ _ _ 5 (by norm_num)]
  rw [weatherStep_acc f data _ _ _ _ 6 (by norm_num)]
  rw [weatherStep_push f data _ _ _ _ 7 (by norm_num)]
  rw [weatherStep_acc f data _ _ _ _ 8 (by norm_num)]
  rw [weatherStep_acc f data _ _ _ _ 9 (by norm_num)]
  rw [weatherStep_acc f data _ _ _ _ 10 (by norm_num)]
  rw [weatherStep_acc f data _ _ _ _ 11 (by norm_num)]
  rw [weatherStep_acc f data _ _ _ _ 12 (by norm_num)]
  rw [weatherStep_acc f data _ _ _ _ 13 (by norm_num)]
  rw [weatherStep_acc f data _ _ _ _ 14 (by norm_num)]
  rw [weatherStep_push f data _ _ _ _ 15 (by norm_num)]
  rw [weatherStep_acc f data _ _ _ _ 16 (by norm_num)]
  rw [weatherStep_acc f data _ _ _ _ 17 (by norm_num)]
  rw [weatherStep_acc f data _ _ _ _ 18 (by norm_num)]
  rw [weatherStep_acc f data _ _ _ _ 19 (by norm_num)]
  rw [weatherStep_acc f data _ _ _ _ 20 (by norm_num)]
  rw [weatherStep_acc f data _ _ _ _ 21 (by norm_num)]
  rw [weatherStep_acc f data _ _ _ _ 22 (by norm_num)]
  rw [weatherStep_push f data _ _ _ _ 23 (by norm_num)]
  rw [weatherStep_acc f data _ _ _ _ 24 (by norm_num)]
  rw [weatherStep_acc f data _ _ _ _ 25 (by norm_num)]
  rw [weatherStep_acc f data _ _ _ _ 26 (by norm_num)]
  rw [weatherStep_acc f data _ _ _ _ 27 (by norm_num)]
  rw [weatherStep_acc f data _ _ _ _ 28 (by norm_num)]
  rw [weatherStep_acc f data _ _ _ _ 29 (by norm_num)]
  rw [weatherStep_acc f data _ _ _ _ 30 (by norm_num)]
  rw [weatherStep_push f data _ _ _ _ 31 (by norm_num)]
  rw [weatherStep_acc f data _ _ _ _ 32 (by norm_num)]
  rw [weatherStep_acc f data _ _ _ _ 33 (by norm_num)]
  rw [weatherStep_acc f data _ _ _ _ 34 (by norm_num)]
  rw [weatherStep_acc f data _ _ _ _ 35 (by norm_num)]
  rw [weatherStep_acc f data _ _ _ _ 36 (by norm_num)]
  rw [weatherStep_acc f data _ _ _ _ 37 (by norm_num)]
  rw [weatherStep_acc f data _ _ _ _ 38 (by norm_num)]
  rw [weatherStep_push f data _ _ _ _ 39 (by norm_num)]
  simp only [List.nil_append, List.cons_append, List.getD_cons_zero,
    List.getD_cons_succ, omin, omax, Option.elim_none, Option.elim_some,
    Option.getD_some, mkDay]

theorem min8_le_first (a0 a1 a2 a3 a4 a5 a6 a7 : ℚ) :
    min (min (min (min (min (min (min a0 a1) a2) a3) a4) a5) a6) a7 ≤ a0 :=
  le_trans (min_le_left _ _) (le_trans (min_le_left _ _)
    (le_trans (min_le_left _ _) (le_trans (min_le_left _ _)
      (le_trans (min_le_left _ _) (le_trans (min_le_left _ _)
        (min_le_left _ _))))))

theorem first_le_max8 (a0 a1 a2 a3 a4 a5 a6 a7 : ℚ) :
    a0 ≤ max (max (max (max (max (max (max a0 a1) a2) a3) a4) a5) a6) a7 :=
  le_trans (le_max_left _ _) (le_trans (le_max_left _ _)
    (le_trans (le_max_left _ _) (le_trans (le_max_left _ _)
      (le_trans (le_max_left _ _) (le_trans (le_max_left _ _)
        (le_max_left _ _))))))

theorem mkDay_low_le_high (f : ℤ → String) (data : List ForecastEntry)
    (k : ℕ) (hlen : 8 * k < data.length)
    (hmm : ∀ e ∈ data, e.temp_min ≤ e.temp_max) :
    (mkDay f data k).low_temp ≤ (mkDay f data k).high_temp := by
  have hmem : data.getD (8 * k) default ∈ data := by
    rw [List.getD_eq_getElem _ _ hlen]
    exact List.getElem_mem _
  have h0 := hmm _ hmem
  simp only [mkDay]
  exact roundHalfEven_mono (le_trans (min8_le_first _ _ _ _ _ _ _ _)
    (le_trans h0 (first_le_max8 _ _ _ _ _ _ _ _)))

/-- C7: on every input, `get_weather` as written raises `NameError`, because
line 208 references `math.inf` and `math` is never imported, so the claimed
reshaping behavior is unreachable; and with that one name bound (the evident
intent, since numpy's `inf` is imported for this purpose), the loop on any
response with 40 consecutive entries whose `temp_min ≤ temp_max` produces
exactly 5 day objects, each with `low_temp ≤ high_temp` and with its
description title-cased from the day's fifth (midday) slot. -/
theorem c7_weather_math_name_error (f : ℤ → String)
    (data : List ForecastEntry) (hlen : 40 ≤ data.length)
    (hmm : ∀ e ∈ data, e.temp_min ≤ e.temp_max) :
    get_weather moduleImportedNames f data = .error .nameError ∧
    ∃ days, get_weather ("math" :: moduleImportedNames) f data = .ok days ∧
      days.length = 5 ∧ (∀ d ∈ days, d.low_temp ≤ d.high_temp) ∧
      ∀ k, k < 5 → (days.getD k default).description =
        pyTitle ((data.getD (8 * k + 4) default).description) := by
  constructor
  · rfl
  · refine ⟨weatherDays f data, rfl, ?_, ?_, ?_⟩
    · rw [weatherDays_eq]
      rfl
    · rw [weatherDays_eq]
      intro d hd
      simp only [List.mem_cons, List.not_mem_nil, or_false] at hd
      rcases hd with rfl | rfl | rfl | rfl | rfl
      · exact mkDay_low_le_high f data 0 (by omega) hmm
      · exact mkDay_low_le_high f data 1 (by omega) hmm
      · exact mkDay_low_le_high f data 2 (by omega) hmm
      · exact mkDay_low_le_high f data 3 (by omega) hmm
      · exact mkDay_low_le_high f data 4 (by omega) hmm
    · rw [weatherDays_eq]
      intro k hk
      interval_cases k <;>
        simp only [List.getD_cons_zero, List.getD_cons_succ, mkDay]

/-- A sample well-formed weather response: 40 consecutive 3-hour entries. -/
def sampleForecast : List ForecastEntry :=
  (List.range 40).map fun i : ℕ =>
    ⟨86400 * (i : ℤ), "light rain", 50 + (i : ℚ), 60 + (i : ℚ), "10d"⟩

/-- C7 witness: the theorem applied to the sample 40-entry response. -/
theorem c7_weather_math_name_error_witness :
    get_weather moduleImportedNames (fun _ => "Monday") sampleForecast =
      .error .nameError ∧
    ∃ days, get_weather ("math" :: moduleImportedNames) (fun _ => "Monday")
        sampleForecast = .ok days ∧
      days.length = 5 ∧ (∀ d ∈ days, d.low_temp ≤ d.high_temp) ∧
      ∀ k, k < 5 → (days.getD k default).description =
        pyTitle ((sampleForecast.getD (8 * k + 4) default).description) :=
  c7_weather_math_name_error (fun _ => "Monday") sampleForecast
    (by
      unfold sampleForecast
      rw [List.length_map, List.length_range])
    (by
      intro e he
      simp only [sampleForecast, List.mem_map] at he
      obtain ⟨i, hi, rfl⟩ := he
      show (50 + (i : ℚ)) ≤ 60 + (i : ℚ)
      linarith)

end Dashboard
